import Mathlib

/-!
Verification of the augmeter usage-metering client against its design
specification.  The TypeScript sources are shallowly embedded as Lean
functions: JSON payloads become an inductive `JsVal` type, asynchronous
operations become functions from the attempt number to an `Except` outcome,
and the single-threaded event-loop concurrency of the single-flight map is
modelled as atomic steps on an explicit state.
-/

namespace Augmeter

/-! ## JavaScript value model

JSON payloads handed to the usage-response normalizer are arbitrary
JavaScript values.  `JsVal` models the fragment exercised by the client:
numbers (integral in all observed payloads), strings, booleans, `null`,
`undefined`, `NaN` and plain objects. -/

inductive JsVal where
  | num (n : Int)
  | str (s : String)
  | boolean (b : Bool)
  | null
  | undefval
  | nan
  | obj (fields : List (String × JsVal))

/-- Property access `v.k`: field lookup on objects, `undefined` otherwise. -/
def JsVal.getField : JsVal → String → JsVal
  | .obj fields, k =>
    match fields.lookup k with
    | some v => v
    | none => .undefval
  | _, _ => .undefval

/-- JavaScript truthiness. -/
def JsVal.truthy : JsVal → Bool
  | .num n => n != 0
  | .str s => s != ""
  | .boolean b => b
  | .null => false
  | .undefval => false
  | .nan => false
  | .obj _ => true

/-- Test for `undefined` (the TS code probes fields with `!== undefined`). -/
def JsVal.isUndefined : JsVal → Bool
  | .undefval => true
  | _ => false

/-- Test for `null` or `undefined`, the two nullish values. -/
def JsVal.isNullish : JsVal → Bool
  | .null => true
  | .undefval => true
  | _ => false

/-- The nullish-coalescing operator `a ?? b`. -/
def jsNullish (a b : JsVal) : JsVal :=
  if a.isNullish then b else a

/-- The logical-or operator `a || b` (returns `a` when truthy, else `b`). -/
def jsOr (a b : JsVal) : JsVal :=
  if a.truthy then a else b

/-- String conversion used by template literals. -/
def JsVal.display : JsVal → String
  | .num n => toString n
  | .str s => s
  | .boolean b => cond b "true" "false"
  | .null => "null"
  | .undefval => "undefined"
  | .nan => "NaN"
  | .obj _ => "[object Object]"

/-- Numeric coercion (`Number(v)`); `none` models `NaN`. -/
def JsVal.toNumber : JsVal → Option Int
  | .num n => some n
  | .boolean b => some (if b then 1 else 0)
  | .null => some 0
  | .str s => if s = "" then some 0 else s.toInt?
  | .undefval => none
  | .nan => none
  | .obj _ => none

/-- The `+` operator: string concatenation when either side is a string or
object, numeric addition otherwise (`NaN` when a side does not coerce). -/
def jsAdd (a b : JsVal) : JsVal :=
  match a, b with
  | .str _, _ | _, .str _ | .obj _, _ | _, .obj _ =>
    .str (a.display ++ b.display)
  | _, _ =>
    match a.toNumber, b.toNumber with
    | some x, some y => .num (x + y)
    | _, _ => .nan

/-- The `-` operator: numeric subtraction, `NaN`-propagating. -/
def jsSub (a b : JsVal) : JsVal :=
  match a.toNumber, b.toNumber with
  | some x, some y => .num (x - y)
  | _, _ => .nan

/-- Coercion pattern `Number(v) || 0` from the fallback rule. -/
def jsNumberOrZero (v : JsVal) : Int :=
  match v.toNumber with
  | some n => n
  | none => 0

/-! ## Envelope and canonical-record types

`AugmentApiResponse` and `AugmentUsageData` mirror the interfaces in
`core/types/augment.ts`; optional fields of the usage record keep their raw
`JsVal` (absent = `undefval`). -/

structure AugmentApiResponse where
  success : Bool
  data : JsVal := .undefval
  error : Option String := none
  code : Option String := none
  status : Option Nat := none

structure AugmentUsageData where
  totalUsage : JsVal := .undefval
  usageLimit : JsVal := .undefval
  dailyUsage : JsVal := .undefval
  monthlyUsage : JsVal := .undefval
  lastUpdate : JsVal := .undefval
  subscriptionType : JsVal := .undefval
  renewalDate : JsVal := .undefval

/-! ## Usage response normalizer

`parseUsageResponsePure` embeds the pure parser from the usage-parsing
module.  Each shape rule of the ordered cascade is split into its guard (the
condition of the corresponding `if` in the source) and its result record, so
the evaluation-order theorems can name individual rules; the parser itself is
the source's if-chain over them.  The ambient timestamp
`new Date().toISOString()` is passed explicitly as `now`. -/

/-- Rule 1 guard: a `usageUnitsUsedThisBillingCycle` field is present. -/
def rule1Guard (data : JsVal) : Bool :=
  !(data.getField "usageUnitsUsedThisBillingCycle").isUndefined

/-- Rule 1 ("community-style" units shape). -/
def rule1Result (now : String) (data : JsVal) : AugmentUsageData :=
  { totalUsage := data.getField "usageUnitsUsedThisBillingCycle"
    usageLimit :=
      jsAdd (jsNullish (data.getField "usageUnitsAvailable") (.num 0))
        (data.getField "usageUnitsUsedThisBillingCycle")
    dailyUsage := data.getField "usageUnitsUsedThisBillingCycle"
    monthlyUsage := data.getField "usageUnitsUsedThisBillingCycle"
    lastUpdate := .str now
    subscriptionType := .str "community" }

/-- Rule 2 guard: both flat credits fields are present. -/
def rule2Guard (data : JsVal) : Bool :=
  !(data.getField "creditsRenewingEachBillingCycle").isUndefined &&
    !(data.getField "creditsIncludedThisBillingCycle").isUndefined

/-- Rule 2 (flat credits shape). -/
def rule2Result (now : String) (data : JsVal) : AugmentUsageData :=
  { totalUsage :=
      jsSub (data.getField "creditsIncludedThisBillingCycle")
        (data.getField "creditsRenewingEachBillingCycle")
    usageLimit := data.getField "creditsIncludedThisBillingCycle"
    monthlyUsage :=
      jsSub (data.getField "creditsIncludedThisBillingCycle")
        (data.getField "creditsRenewingEachBillingCycle")
    lastUpdate := .str now
    subscriptionType :=
      jsOr (data.getField "augmentPlanType") (data.getField "planName")
    renewalDate := data.getField "billingPeriodEnd" }

/-- The `credits` object probe: `data.credits || data.Credits || undefined`. -/
def creditsField (data : JsVal) : JsVal :=
  jsOr (data.getField "credits") (jsOr (data.getField "Credits") .undefval)

/-- Rule 3 guard: truthy nested credits object, variant A fields. -/
def rule3Guard (data : JsVal) : Bool :=
  (creditsField data).truthy &&
    (!((creditsField data).getField "includedThisBillingCycle").isUndefined &&
      !((creditsField data).getField "renewingEachBillingCycle").isUndefined)

/-- Rule 3 (nested credits, variant A). -/
def rule3Result (now : String) (data : JsVal) : AugmentUsageData :=
  { totalUsage :=
      jsSub ((creditsField data).getField "includedThisBillingCycle")
        ((creditsField data).getField "renewingEachBillingCycle")
    usageLimit := (creditsField data).getField "includedThisBillingCycle"
    lastUpdate := .str now
    subscriptionType :=
      jsOr (data.getField "augmentPlanType")
        (jsOr (data.getField "planName") ((creditsField data).getField "planName"))
    renewalDate :=
      jsOr ((creditsField data).getField "billingPeriodEnd")
        (data.getField "billingPeriodEnd") }

/-- Rule 4 guard: truthy nested credits object, variant B fields. -/
def rule4Guard (data : JsVal) : Bool :=
  (creditsField data).truthy &&
    (!((creditsField data).getField "used").isUndefined &&
      !((creditsField data).getField "available").isUndefined)

/-- Rule 4 (nested credits, variant B: `used` plus `available`). -/
def rule4Result (now : String) (data : JsVal) : AugmentUsageData :=
  { totalUsage := (creditsField data).getField "used"
    usageLimit :=
      jsAdd ((creditsField data).getField "used")
        ((creditsField data).getField "available")
    lastUpdate := .str now
    subscriptionType :=
      jsOr (data.getField "augmentPlanType")
        (jsOr (data.getField "planName") ((creditsField data).getField "planName"))
    renewalDate :=
      jsOr ((creditsField data).getField "billingPeriodEnd")
        (data.getField "billingPeriodEnd") }

/-- The `usage` object probe: `data.usage || data.Usage || undefined`. -/
def usageObjField (data : JsVal) : JsVal :=
  jsOr (data.getField "usage") (jsOr (data.getField "Usage") .undefval)

/-- Rule 5 guard: truthy nested usage object with `used` and a limit. -/
def rule5Guard (data : JsVal) : Bool :=
  (usageObjField data).truthy &&
    (!((usageObjField data).getField "used").isUndefined &&
      (!((usageObjField data).getField "limit").isUndefined ||
        !((usageObjField data).getField "total").isUndefined))

/-- Rule 5 (generic nested usage object). -/
def rule5Result (now : String) (data : JsVal) : AugmentUsageData :=
  { totalUsage := (usageObjField data).getField "used"
    usageLimit :=
      jsNullish ((usageObjField data).getField "limit")
        ((usageObjField data).getField "total")
    dailyUsage := (usageObjField data).getField "dailyUsage"
    monthlyUsage := (usageObjField data).getField "monthlyUsage"
    lastUpdate := jsOr ((usageObjField data).getField "updatedAt") (.str now)
    subscriptionType :=
      jsOr (data.getField "plan")
        (jsOr (data.getField "tier") (data.getField "subscriptionType"))
    renewalDate :=
      jsOr (data.getField "renewalDate") (data.getField "nextBilling") }

/-- The coalesced consumed value of the fallback rule:
`data.used ?? data.totalUsage ?? data.usage ?? data.count ?? 0`. -/
def fallbackUsed (data : JsVal) : JsVal :=
  jsNullish (data.getField "used")
    (jsNullish (data.getField "totalUsage")
      (jsNullish (data.getField "usage")
        (jsNullish (data.getField "count") (.num 0))))

/-- The coalesced limit value of the fallback rule, with the documented
default of 1000. -/
def fallbackLimit (data : JsVal) : JsVal :=
  jsNullish (data.getField "limit")
    (jsNullish (data.getField "quota")
      (jsNullish (data.getField "maxUsage")
        (jsNullish
          (if !(data.getField "available").isUndefined &&
              !(fallbackUsed data).isUndefined then
            jsAdd (fallbackUsed data) (data.getField "available")
          else .undefval)
          (.num 1000))))

/-- Rule 6 (fallback over historically-used root field aliases). -/
def rule6Result (now : String) (data : JsVal) : AugmentUsageData :=
  { totalUsage := .num (jsNumberOrZero (fallbackUsed data))
    usageLimit := .num (jsNumberOrZero (fallbackLimit data))
    dailyUsage := jsOr (data.getField "dailyUsage") (data.getField "today")
    monthlyUsage :=
      jsOr (data.getField "monthlyUsage") (data.getField "thisMonth")
    lastUpdate :=
      jsOr (data.getField "lastUpdate")
        (jsOr (data.getField "updatedAt") (.str now))
    subscriptionType :=
      jsOr (data.getField "plan")
        (jsOr (data.getField "tier") (data.getField "subscriptionType"))
    renewalDate :=
      jsOr (data.getField "renewalDate") (data.getField "nextBilling") }

/-- `parseUsageResponsePure`: `null` for unsuccessful envelopes or falsy
payloads, then the six shape rules in fixed precedence order. -/
def parseUsageResponsePure (now : String) (response : AugmentApiResponse) :
    Option AugmentUsageData :=
  if !response.success || !response.data.truthy then none
  else
    let data := response.data
    if rule1Guard data then some (rule1Result now data)
    else if rule2Guard data then some (rule2Result now data)
    else if rule3Guard data then some (rule3Result now data)
    else if rule4Guard data then some (rule4Result now data)
    else if rule5Guard data then some (rule5Result now data)
    else some (rule6Result now data)

/-- Guard of the i-th shape rule, 1-based; the fallback rule 6 always
matches and indices outside 1–6 never do. -/
def ruleGuard (data : JsVal) : Nat → Bool
  | 1 => rule1Guard data
  | 2 => rule2Guard data
  | 3 => rule3Guard data
  | 4 => rule4Guard data
  | 5 => rule5Guard data
  | 6 => true
  | _ => false

/-- Result of the i-th shape rule. -/
def ruleResult : Nat → String → JsVal → Option AugmentUsageData
  | 1, now, data => some (rule1Result now data)
  | 2, now, data => some (rule2Result now data)
  | 3, now, data => some (rule3Result now data)
  | 4, now, data => some (rule4Result now data)
  | 5, now, data => some (rule5Result now data)
  | 6, now, data => some (rule6Result now data)
  | _, _, _ => none

/-- Index of the earliest matching shape rule. -/
def firstMatchingRule (data : JsVal) : Nat :=
  if rule1Guard data then 1
  else if rule2Guard data then 2
  else if rule3Guard data then 3
  else if rule4Guard data then 4
  else if rule5Guard data then 5
  else 6

/-! ## Error taxonomy and thrown values

`ErrorType` and `AugmeterError` come from `core/errors/augmeter-error.ts`.
A thrown JavaScript value is either a typed `AugmeterError`, a plain `Error`
with a `name` and `message`, or some other value. -/

inductive ErrorType where
  | authentication
  | network
  | validation
  | configuration
  | storage
  | api
  | unknown
deriving DecidableEq

inductive JsError where
  | augmeter (type : ErrorType) (message : String)
  | plain (name message : String)
  | other (value : String)
deriving DecidableEq

/-- Substring test modelling `String.prototype.includes`. -/
def containsSubstr (s pat : String) : Bool :=
  s.toList.tails.any (fun t => pat.toList.isPrefixOf t)

/-- Rendering of a thrown value inside a template literal (`AugmeterError`
instances carry the name `AugmeterError`). -/
def JsError.display : JsError → String
  | .augmeter _ m => "AugmeterError: " ++ m
  | .plain name m => name ++ ": " ++ m
  | .other v => v

/-! ## HTTP envelope -/

/-- Uniform response envelope produced by the HTTP client
(`core/http/http-client.ts`).  Response payloads and headers do not take
part in retry decisions; the payload is kept, headers are dropped. -/
structure HttpResponse where
  success : Bool
  status : Option Nat := none
  data : JsVal := .undefval
  error : Option String := none

/-! ## Retry policy executor

Embeds `RetryHandler` from `core/http/retry-handler.ts`.  An asynchronous
operation is a function from the attempt number (starting at 1) to its
outcome, `Except.error` modelling a thrown value.  Each executor returns the
final outcome together with the number of times the operation was invoked.
The logging and sleeping side effects have no bearing on results and are
omitted. -/

structure RetryConfig where
  maxAttempts : Nat := 3
  baseDelayMs : Nat := 500
  maxDelayMs : Nat := 30000
  factor : Nat := 2
  jitter : Bool := true

/-- Classification of thrown errors (`RetryHandler.shouldRetry`). -/
def shouldRetry : JsError → Bool
  | .augmeter t _ => t == .network || t == .api
  | .plain name msg =>
    if name == "AbortError" then false
    else if containsSubstr msg "ENOTFOUND" then false
    else if containsSubstr msg "ECONNREFUSED" then true
    else if containsSubstr msg "timeout" then false
    else true
  | .other _ => true

/-- Classification of failed envelopes
(`RetryHandler.shouldRetryHttpResponse`).  A missing status and status `0`
are both falsy in `!response.status`. -/
def shouldRetryHttpResponse (r : HttpResponse) : Bool :=
  match r.status with
  | none => false
  | some s =>
    if s == 0 then false
    else if s ≥ 500 then true
    else if s == 429 then true
    else if s == 408 then true
    else if s ≥ 400 && s < 500 then false
    else false

/-- Error thrown after the `executeWithRetry` loop exhausts all attempts: the
last error itself when it is an `AugmeterError`, otherwise a network error
wrapping it. -/
def finalizeRetryError (maxAttempts : Nat) : Option JsError → JsError
  | some (JsError.augmeter t m) => .augmeter t m
  | le =>
    .augmeter .network
      ("Operation failed after " ++ toString maxAttempts ++ " attempts: " ++
        (match le with
         | some e => e.display
         | none => "undefined"))

/-- Attempt loop of `RetryHandler.executeWithRetry`; `attempt` is the
1-based attempt counter, `remaining` the attempts left. -/
def executeWithRetryGo (op : Nat → Except JsError T) (maxAttempts : Nat) :
    Nat → Nat → Option JsError → Except JsError T × Nat
  | attempt, 0, lastError =>
    (.error (finalizeRetryError maxAttempts lastError), attempt - 1)
  | attempt, remaining + 1, _ =>
    match op attempt with
    | .ok v => (.ok v, attempt)
    | .error e =>
      if shouldRetry e then
        executeWithRetryGo op maxAttempts (attempt + 1) remaining (some e)
      else (.error e, attempt)

/-- `RetryHandler.executeWithRetry`: result plus number of invocations. -/
def executeWithRetry (cfg : RetryConfig) (op : Nat → Except JsError T) :
    Except JsError T × Nat :=
  executeWithRetryGo op cfg.maxAttempts 1 cfg.maxAttempts none

/-- Attempt loop of `RetryHandler.executeHttpWithRetry`.  A retriable throw
on the final attempt is rethrown; envelope exhaustion returns the last
failed envelope (or a synthesized one when no attempt ever ran). -/
def executeHttpGo (op : Nat → Except JsError HttpResponse) (maxAttempts : Nat) :
    Nat → Nat → Option HttpResponse → Except JsError HttpResponse × Nat
  | attempt, 0, lastResponse =>
    (.ok (lastResponse.getD
      { success := false
        error := some ("Failed after " ++ toString maxAttempts ++ " attempts")
        status := some 0 }), attempt - 1)
  | attempt, remaining + 1, lastResponse =>
    match op attempt with
    | .ok r =>
      if r.success then (.ok r, attempt)
      else if !shouldRetryHttpResponse r then (.ok r, attempt)
      else executeHttpGo op maxAttempts (attempt + 1) remaining (some r)
    | .error e =>
      if !shouldRetry e then (.error e, attempt)
      else if remaining == 0 then (.error e, attempt)
      else executeHttpGo op maxAttempts (attempt + 1) remaining lastResponse

/-- `RetryHandler.executeHttpWithRetry`: result plus number of invocations. -/
def executeHttpWithRetry (cfg : RetryConfig)
    (op : Nat → Except JsError HttpResponse) :
    Except JsError HttpResponse × Nat :=
  executeHttpGo op cfg.maxAttempts 1 cfg.maxAttempts none

/-! ## Single-flight request deduplication

`AugmentApiClient.fetchWithSingleFlight` runs on a single-threaded event
loop: from the map lookup to the `inFlightRequests.set` no suspension point
occurs, so the lookup/register sequence is one atomic step, and the
`finally` handler that deletes the key is another.  `SingleFlightState`
models the in-flight map (promises named by numeric ids) together with a
counter of underlying transport calls started. -/

structure SingleFlightState where
  inFlight : List (String × Nat) := []
  nextPromiseId : Nat := 0
  transportCalls : Nat := 0

/-- Key construction (`AugmentApiClient.getRequestKey`). -/
def getRequestKey (baseUrl endpoint method : String) : String :=
  baseUrl ++ "|" ++ method ++ "|" ++ endpoint

/-- Map update `Map.set key v` on the association-list model. -/
def mapSet (m : List (String × Nat)) (key : String) (v : Nat) :
    List (String × Nat) :=
  (key, v) :: m.filter (fun e => e.1 != key)

/-- Atomic step for a call to `fetchWithSingleFlight`: return the pending
promise when one exists, otherwise start a transport call and register the
fresh promise before yielding. -/
def fetchWithSingleFlight (st : SingleFlightState)
    (baseUrl endpoint method : String) : Nat × SingleFlightState :=
  let key := getRequestKey baseUrl endpoint method
  match st.inFlight.lookup key with
  | some pid => (pid, st)
  | none =>
    (st.nextPromiseId,
     { inFlight := mapSet st.inFlight key st.nextPromiseId
       nextPromiseId := st.nextPromiseId + 1
       transportCalls := st.transportCalls + 1 })

/-- Atomic step for the `finally` handler: the map entry for the key is
deleted when the underlying promise settles, resolved or rejected. -/
def settleSingleFlight (st : SingleFlightState) (key : String) :
    SingleFlightState :=
  { st with inFlight := st.inFlight.filter (fun e => e.1 != key) }

/-! ## Authenticated API gateway

Embeds the request/fallback/credential logic of `AugmentApiClient`
(`makeRequestWithBase` and `getUsageData`).  The network is abstracted as a
function from the issued request (base URL, endpoint, attached cookie) to
the outcome of the retry-wrapped HTTP call; every issued request is logged
so theorems can count network calls and inspect the credential they
carried. -/

def DEFAULT_API_BASE_URL : String := "https://app.augmentcode.com/api"

structure ClientState where
  sessionCookie : Option String := none
  persistedCookie : Option String := none

structure RequestLogEntry where
  baseUrl : String
  endpoint : String
  cookie : Option String

/-- Credential presence test (`AugmentApiClient.hasCookie`). -/
def hasCookie (st : ClientState) : Bool :=
  match st.sessionCookie with
  | some c => c.length > 0
  | none => false

/-- Credential invalidation (`AugmentApiClient.clearSessionCookie`): clears
the in-memory cookie and the persisted one. -/
def clearSessionCookie (st : ClientState) : ClientState :=
  { st with sessionCookie := none, persistedCookie := none }

/-- Falsy-or on the optional error string (`response.error || fallback`). -/
def errorStringOr (e : Option String) (fallback : String) : String :=
  match e with
  | some s => if s = "" then fallback else s
  | none => fallback

/-- Template rendering of an optional status (`undefined` when absent). -/
def statusDisplay : Option Nat → String
  | some s => toString s
  | none => "undefined"

/-- `AugmentApiClient.makeRequestWithBase`: issue one retry-wrapped request
against an explicit base URL, map 401 to credential invalidation plus the
distinguished `UNAUTHENTICATED` code, and tag other failures as retriable
when the status is 429 or 5xx. -/
def makeRequestWithBase (st : ClientState)
    (net : RequestLogEntry → Except JsError HttpResponse)
    (baseUrl endpoint : String) :
    Except JsError AugmentApiResponse × ClientState × List RequestLogEntry :=
  let entry : RequestLogEntry :=
    { baseUrl := baseUrl, endpoint := endpoint, cookie := st.sessionCookie }
  match net entry with
  | .error e => (.error e, st, [entry])
  | .ok response =>
    if response.status == some 401 then
      (.ok
        { success := false
          error := some "Authentication failed - cookie expired or invalid"
          code := some "UNAUTHENTICATED"
          status := some 401 },
       clearSessionCookie st, [entry])
    else if !response.success then
      let retriable := response.status == some 429 ||
        (match response.status with
         | some s => decide (500 ≤ s ∧ s ≤ 599)
         | none => false)
      (.ok
        { success := false
          error := some (errorStringOr response.error
            ("API request failed: " ++ statusDisplay response.status))
          status := response.status
          code := if retriable then some "RETRIABLE" else none },
       st, [entry])
    else
      (.ok { success := true, data := response.data, status := response.status },
       st, [entry])

/-- `AugmentApiClient.getUsageData`: unauthenticated short-circuit, tenant
base first, fallback to the shared default base for failures that are not
`UNAUTHENTICATED`.  Both requests go through the single-flight path, which
with no pending entry for the key reduces to `makeRequestWithBase`. -/
def getUsageData (st : ClientState) (apiBaseUrl : String)
    (net : RequestLogEntry → Except JsError HttpResponse) :
    Except JsError AugmentApiResponse × ClientState × List RequestLogEntry :=
  if !hasCookie st then
    (.ok { success := false, error := some "Not authenticated",
           code := some "UNAUTHENTICATED" }, st, [])
  else
    match makeRequestWithBase st net apiBaseUrl "/credits" with
    | (.error e, st1, log1) => (.error e, st1, log1)
    | (.ok tenantResp, st1, log1) =>
      if tenantResp.success then (.ok tenantResp, st1, log1)
      else if tenantResp.code == some "UNAUTHENTICATED" then
        (.ok tenantResp, st1, log1)
      else
        match makeRequestWithBase st1 net DEFAULT_API_BASE_URL "/credits" with
        | (r2, st2, log2) => (r2, st2, log1 ++ log2)

/-! ## Usage history and rate engine

Embeds the pure statics of `UsageTracker` (`usage-tracker.ts`).  Snapshot
timestamps are epoch milliseconds; `Date.now()` is the explicit `now`
parameter.  Rates are rationals since the source divides numbers. -/

structure UsageSnapshot where
  timestamp : Int
  consumed : Int

/-- Stable insertion into a timestamp-sorted list: an element goes after all
earlier-or-equal timestamps, matching the stable `Array.prototype.sort`. -/
def insertByTime (s : UsageSnapshot) :
    List UsageSnapshot → List UsageSnapshot
  | [] => [s]
  | t :: ts =>
    if s.timestamp ≤ t.timestamp then s :: t :: ts else t :: insertByTime s ts

/-- Stable sort by timestamp (`.sort((a, b) => ta - tb)`). -/
def sortByTime : List UsageSnapshot → List UsageSnapshot
  | [] => []
  | s :: ss => insertByTime s (sortByTime ss)

/-- Snapshots inside the trailing window, sorted by time
(the `inWindow` series of `UsageTracker.computeUsageRate`). -/
def inWindowSorted (now : Int) (windowHours : Int)
    (snapshots : List UsageSnapshot) : List UsageSnapshot :=
  let cutoff := now - windowHours * (60 * 60 * 1000)
  sortByTime (snapshots.filter (fun s => s.timestamp ≥ cutoff))

/-- `UsageTracker.computeUsageRate`: consumption rate per hour over the
trailing window, `none` for too few points, too short a span, or a
billing-cycle reset. -/
def computeUsageRate (now : Int) (snapshots : List UsageSnapshot)
    (windowHours : Int) : Option ℚ :=
  if snapshots.length < 2 then none
  else
    let inWindow := inWindowSorted now windowHours snapshots
    if inWindow.length < 2 then none
    else
      match inWindow.head?, inWindow.getLast? with
      | some earliest, some latest =>
        let deltaConsumed := latest.consumed - earliest.consumed
        let deltaMs := latest.timestamp - earliest.timestamp
        if deltaMs < 60000 then none
        else if deltaConsumed < 0 then none
        else some ((deltaConsumed : ℚ) / ((deltaMs : ℚ) / (3600000 : ℚ)))
      | _, _ => none

/-- `UsageTracker.computeProjectedDays`: days left at the given hourly
rate; `none` when the rate is missing or non-positive. -/
def computeProjectedDays (remaining : ℚ) (ratePerHour : Option ℚ) :
    Option ℚ :=
  match ratePerHour with
  | none => none
  | some r => if r ≤ 0 then none else some (remaining / (r * 24))

/-- `UsageTracker.getProjectedDaysRemaining`, as a function of the tracked
limit and usage and of the computed rate: returns `0` outright when nothing
remains, before consulting the rate. -/
def getProjectedDaysRemaining (currentLimit currentUsage : ℚ)
    (rate : Option ℚ) : Option ℚ :=
  let remaining := if currentLimit > 0 then currentLimit - currentUsage else 0
  if remaining ≤ 0 then some 0
  else computeProjectedDays remaining rate

/-! ## Threshold notifier

Embeds `UsageTracker.checkThresholdNotifications` together with the
persisted last-notified integer of `StorageManager`.  A call returns the
new last-notified value and the list of thresholds it fired (the `break`
makes that list have at most one element). -/

def NOTIFICATION_THRESHOLDS : List Int := [95, 90, 75]

/-- Loop body of `checkThresholdNotifications` over the threshold list:
fire and persist the first (hence highest) threshold that the percentage
reaches and the stored value has not, then break. -/
def checkThresholdLoop (lastNotified percentage : Int) :
    List Int → Int × List Int
  | [] => (lastNotified, [])
  | t :: rest =>
    if percentage ≥ t ∧ lastNotified < t then (t, [t])
    else checkThresholdLoop lastNotified percentage rest

/-- One call to `UsageTracker.checkThresholdNotifications`. -/
def checkThresholdNotifications (lastNotified percentage : Int) :
    Int × List Int :=
  checkThresholdLoop lastNotified percentage NOTIFICATION_THRESHOLDS

/-- A sequence of calls threading the persisted last-notified value, with
all fired thresholds concatenated in order. -/
def runThresholdSequence (lastNotified : Int) :
    List Int → Int × List Int
  | [] => (lastNotified, [])
  | p :: ps =>
    let step := checkThresholdNotifications lastNotified p
    let rest := runThresholdSequence step.1 ps
    (rest.1, step.2 ++ rest.2)

/-- `StorageManager.getLastNotifiedThreshold`: stored integer with
default `0`. -/
def getLastNotifiedThreshold (stored : Option Int) : Int :=
  stored.getD 0

/-! ## Supporting lemmas -/

lemma lookup_filter_ne_eq_none (m : List (String × Nat)) (key : String) :
    (m.filter (fun e => e.1 != key)).lookup key = none := by
  induction m with
  | nil => rfl
  | cons e m ih =>
    obtain ⟨e1, e2⟩ := e
    by_cases h : e1 = key
    · simpa [List.filter_cons, h] using ih
    · have h1 : (e1 != key) = true := by simp [h]
      have h2 : (key == e1) = false := by
        simp [show ¬key = e1 from fun hk => h hk.symm]
      simp [List.filter_cons, h1, List.lookup, h2, ih]

/-! ## Claim theorems -/

/-- C2: a `fetchWithSingleFlight` call finding a pending promise for its
`(baseUrl, method, endpoint)` key returns that promise unchanged — no new
transport call, no state change; a call finding none registers its fresh
promise in the in-flight map within the same atomic step and starts exactly
one transport call; and settlement of a promise removes its map entry
whether it resolved or rejected. -/
theorem singleFlight_spec :
    (∀ (st : SingleFlightState) (b e m : String) (pid : Nat),
        st.inFlight.lookup (getRequestKey b e m) = some pid →
        fetchWithSingleFlight st b e m = (pid, st)) ∧
    (∀ (st : SingleFlightState) (b e m : String),
        st.inFlight.lookup (getRequestKey b e m) = none →
        (fetchWithSingleFlight st b e m).2.inFlight.lookup (getRequestKey b e m) =
            some (fetchWithSingleFlight st b e m).1 ∧
          (fetchWithSingleFlight st b e m).2.transportCalls =
            st.transportCalls + 1) ∧
    (∀ (st : SingleFlightState) (key : String),
        (settleSingleFlight st key).inFlight.lookup key = none) := by
  refine ⟨?_, ?_, ?_⟩
  · intro st b e m pid h
    simp [fetchWithSingleFlight, h]
  · intro st b e m h
    simp [fetchWithSingleFlight, h, mapSet, List.lookup]
  · intro st key
    simpa [settleSingleFlight] using
      lookup_filter_ne_eq_none st.inFlight key

/-- Witness for C2 at a concrete state: a second call for a pending key
returns the pending promise id 7 without a new transport call, and settling
removes the entry. -/
theorem singleFlight_spec_witness :
    fetchWithSingleFlight
        { inFlight := [(getRequestKey "https://t.example/api" "/credits" "GET", 7)]
          nextPromiseId := 8
          transportCalls := 1 }
        "https://t.example/api" "/credits" "GET" =
      (7,
        { inFlight := [(getRequestKey "https://t.example/api" "/credits" "GET", 7)]
          nextPromiseId := 8
          transportCalls := 1 }) ∧
    (settleSingleFlight
        { inFlight := [(getRequestKey "https://t.example/api" "/credits" "GET", 7)]
          nextPromiseId := 8
          transportCalls := 1 }
        (getRequestKey "https://t.example/api" "/credits" "GET")).inFlight.lookup
      (getRequestKey "https://t.example/api" "/credits" "GET") = none := by
  exact ⟨singleFlight_spec.1 _ _ _ _ 7 (by decide), singleFlight_spec.2.2 _ _⟩

/-- C6 counterexample: `computeProjectedDays` applies no `remaining ≤ 0`
guard of its own, so at remaining `-2400` and rate `100` it returns the
negative projection `-1`, not `0` as the claim states. -/
theorem computeProjectedDays_counterexample :
    computeProjectedDays (-2400) (some 100) = some (-1) ∧
      computeProjectedDays (-2400) (some 100) ≠ some 0 := by
  constructor
  · norm_num [computeProjectedDays]
  · norm_num [computeProjectedDays]

/-- C6 (amended): `computeProjectedDays` returns `none` when the rate is
missing or non-positive and otherwise `remaining / (rate * 24)` — which is
`0` exactly at `remaining = 0`; the `remaining ≤ 0 → 0` clause belongs to
the wrapper `getProjectedDaysRemaining`, which short-circuits to `0` before
consulting the rate.  The concrete cases of the claim hold as stated. -/
theorem computeProjectedDays_spec :
    (∀ x : ℚ, computeProjectedDays x none = none) ∧
    (∀ (x r : ℚ), r ≤ 0 → computeProjectedDays x (some r) = none) ∧
    (∀ (x r : ℚ), 0 < r →
        computeProjectedDays x (some r) = some (x / (r * 24))) ∧
    (∀ r : ℚ, 0 < r → computeProjectedDays 0 (some r) = some 0) ∧
    (∀ (lim use : ℚ) (rate : Option ℚ),
        (if lim > 0 then lim - use else 0) ≤ 0 →
        getProjectedDaysRemaining lim use rate = some 0) ∧
    computeProjectedDays 2400 (some 100) = some 1 ∧
    computeProjectedDays 0 (some 100) = some 0 := by
  refine ⟨?_, ?_, ?_, ?_, ?_, ?_, ?_⟩
  · intro x; rfl
  · intro x r h; simp [computeProjectedDays, h]
  · intro x r h; simp [computeProjectedDays, not_le.mpr h]
  · intro r h; simp [computeProjectedDays, not_le.mpr h]
  · intro lim use rate h; simp [getProjectedDaysRemaining, h]
  · norm_num [computeProjectedDays]
  · norm_num [computeProjectedDays]

/-- Witness for C6 at concrete inputs, covering the null-rate, zero-rate,
positive-rate and exhausted-remaining clauses. -/
theorem computeProjectedDays_spec_witness :
    computeProjectedDays 5 none = none ∧
    computeProjectedDays 5 (some 0) = none ∧
    computeProjectedDays 48 (some 2) = some 1 ∧
    getProjectedDaysRemaining 100 100 (some 3) = some 0 := by
  refine ⟨computeProjectedDays_spec.1 5,
    computeProjectedDays_spec.2.1 5 0 le_rfl,
    ?_,
    computeProjectedDays_spec.2.2.2.2.1 100 100 (some 3) (by norm_num)⟩
  have h := computeProjectedDays_spec.2.2.1 48 2 (by norm_num)
  rw [h]; norm_num

lemma checkThresholdLoop_cases (l p : Int) (ts : List Int) :
    checkThresholdLoop l p ts = (l, []) ∨
      ∃ t, checkThresholdLoop l p ts = (t, [t]) ∧ p ≥ t ∧ l < t ∧ t ∈ ts := by
  induction ts with
  | nil => exact Or.inl rfl
  | cons t rest ih =>
    by_cases h : p ≥ t ∧ l < t
    · exact Or.inr ⟨t, by simp [checkThresholdLoop, h], h.1, h.2, by simp⟩
    · rcases ih with h0 | ⟨u, hu, h1, h2, h3⟩
      · exact Or.inl (by simp [checkThresholdLoop, h, h0])
      · exact Or.inr ⟨u, by simp [checkThresholdLoop, h, hu], h1, h2,
          List.mem_cons_of_mem _ h3⟩

lemma checkThresholdLoop_last_le (l p : Int) (ts : List Int) :
    l ≤ (checkThresholdLoop l p ts).1 := by
  rcases checkThresholdLoop_cases l p ts with h | ⟨t, h, _, h2, _⟩ <;>
    simp [h]
  omega

lemma runThresholdSequence_last_le (ps : List Int) (l : Int) :
    l ≤ (runThresholdSequence l ps).1 := by
  induction ps generalizing l with
  | nil => simp [runThresholdSequence]
  | cons p ps ih =>
    simp only [runThresholdSequence]
    exact le_trans (checkThresholdLoop_last_le l p NOTIFICATION_THRESHOLDS)
      (ih _)

lemma runThresholdSequence_fired_gt (ps : List Int) (l : Int) :
    (∀ t ∈ (runThresholdSequence l ps).2, l < t) ∧
      (runThresholdSequence l ps).2.Pairwise (· < ·) := by
  induction ps generalizing l with
  | nil => simp [runThresholdSequence]
  | cons p ps ih =>
    simp only [runThresholdSequence]
    rcases checkThresholdLoop_cases l p NOTIFICATION_THRESHOLDS with h |
        ⟨t, h, _, h2, _⟩
    · simpa [checkThresholdNotifications, h] using ih l
    · have hrest := ih t
      refine ⟨?_, ?_⟩
      · intro u hu
        simp only [checkThresholdNotifications, h, List.cons_append,
          List.nil_append, List.mem_cons] at hu
        rcases hu with rfl | hu
        · exact h2
        · exact lt_trans h2 ((hrest.1) u hu)
      · simp only [checkThresholdNotifications, h, List.cons_append,
          List.nil_append]
        exact List.Pairwise.cons (fun u hu => (hrest.1) u hu) hrest.2

/-- C7: starting from the stored default of 0, the percentage sequence
`[40, 76, 91, 96]` fires exactly the notifications `[75, 90, 95]`; a single
call fires at most one notification and only for the highest threshold that
is newly crossed; a threshold never fires twice in a sequence of calls; and
the stored last-notified value never decreases, per call or across a
sequence. -/
theorem thresholdNotifier_spec :
    (runThresholdSequence (getLastNotifiedThreshold none) [40, 76, 91, 96]).2 =
        [75, 90, 95] ∧
    (∀ l p : Int, (checkThresholdNotifications l p).2.length ≤ 1) ∧
    (∀ l p t : Int, t ∈ (checkThresholdNotifications l p).2 →
        p ≥ t ∧ l < t ∧ t ∈ NOTIFICATION_THRESHOLDS ∧
          ∀ u ∈ NOTIFICATION_THRESHOLDS, t < u → ¬(p ≥ u ∧ l < u)) ∧
    (∀ (l : Int) (ps : List Int), (runThresholdSequence l ps).2.Nodup) ∧
    (∀ l p : Int, l ≤ (checkThresholdNotifications l p).1) ∧
    (∀ (l : Int) (ps : List Int), l ≤ (runThresholdSequence l ps).1) := by
  refine ⟨by decide, ?_, ?_, ?_, ?_, ?_⟩
  · intro l p
    rcases checkThresholdLoop_cases l p NOTIFICATION_THRESHOLDS with h |
        ⟨t, h, _⟩ <;> simp [checkThresholdNotifications, h]
  · intro l p t ht
    simp only [checkThresholdNotifications, NOTIFICATION_THRESHOLDS,
      checkThresholdLoop] at ht ⊢
    split_ifs at ht with h1 h2 h3 <;> simp at ht <;> subst ht
    · refine ⟨h1.1, h1.2, by simp, ?_⟩
      intro u hu hlt
      simp at hu
      omega
    · refine ⟨h2.1, h2.2, by simp, ?_⟩
      intro u hu hlt
      simp at hu
      rcases hu with rfl | rfl | rfl <;> omega
    · refine ⟨h3.1, h3.2, by simp, ?_⟩
      intro u hu hlt
      simp at hu
      rcases hu with rfl | rfl | rfl <;> omega
  · intro l ps
    exact ((runThresholdSequence_fired_gt ps l).2).imp (fun h => ne_of_lt h)
  · intro l p
    exact checkThresholdLoop_last_le l p NOTIFICATION_THRESHOLDS
  · intro l ps
    exact runThresholdSequence_last_le ps l

/-- Witness for C7: at stored value 80 and percentage 92, the call fires
exactly the notification for 90 — the highest newly crossed threshold — and
the stored value does not decrease on a concrete sequence. -/
theorem thresholdNotifier_spec_witness :
    (checkThresholdNotifications 80 92).2.length ≤ 1 ∧
    (90 ∈ (checkThresholdNotifications 80 92).2 →
      (92 : Int) ≥ 90 ∧ (80 : Int) < 90 ∧ (90 : Int) ∈ NOTIFICATION_THRESHOLDS ∧
        ∀ u ∈ NOTIFICATION_THRESHOLDS, 90 < u → ¬((92 : Int) ≥ u ∧ (80 : Int) < u)) ∧
    (runThresholdSequence 0 [76, 76, 96]).2.Nodup ∧
    (0 : Int) ≤ (runThresholdSequence 0 [76, 76, 96]).1 := by
  exact ⟨thresholdNotifier_spec.2.1 80 92,
    fun h => thresholdNotifier_spec.2.2.1 80 92 90 h,
    thresholdNotifier_spec.2.2.2.1 0 [76, 76, 96],
    thresholdNotifier_spec.2.2.2.2.2 0 [76, 76, 96]⟩

lemma executeWithRetryGo_success {T : Type} (op : Nat → Except JsError T)
    (M : Nat) :
    ∀ (k attempt remaining : Nat) (le : Option JsError) (v : T),
      k < remaining →
      (∀ i, attempt ≤ i → i < attempt + k →
        ∃ e, op i = .error e ∧ shouldRetry e = true) →
      op (attempt + k) = .ok v →
      executeWithRetryGo op M attempt remaining le = (.ok v, attempt + k) := by
  intro k
  induction k with
  | zero =>
    intro attempt remaining le v hk hfail hsucc
    obtain ⟨r, rfl⟩ : ∃ r, remaining = r + 1 := ⟨remaining - 1, by omega⟩
    rw [Nat.add_zero] at hsucc ⊢
    simp [executeWithRetryGo, hsucc]
  | succ k ih =>
    intro attempt remaining le v hk hfail hsucc
    obtain ⟨r, rfl⟩ : ∃ r, remaining = r + 1 := ⟨remaining - 1, by omega⟩
    obtain ⟨e, he, hre⟩ := hfail attempt le_rfl (by omega)
    have hstep := ih (attempt + 1) r (some e) v (by omega)
      (fun i h1 h2 => hfail i (by omega) (by omega))
      (by rw [show attempt + 1 + k = attempt + (k + 1) from by omega]
          exact hsucc)
    rw [show attempt + (k + 1) = attempt + 1 + k from by omega]
    simpa [executeWithRetryGo, he, hre] using hstep

lemma executeHttpGo_success (op : Nat → Except JsError HttpResponse)
    (M : Nat) :
    ∀ (k attempt remaining : Nat) (lastR : Option HttpResponse)
      (r : HttpResponse),
      k < remaining →
      (∀ i, attempt ≤ i → i < attempt + k →
        (∃ e, op i = .error e ∧ shouldRetry e = true) ∨
          (∃ q, op i = .ok q ∧ q.success = false ∧
            shouldRetryHttpResponse q = true)) →
      op (attempt + k) = .ok r → r.success = true →
      executeHttpGo op M attempt remaining lastR = (.ok r, attempt + k) := by
  intro k
  induction k with
  | zero =>
    intro attempt remaining lastR r hk hfail hsucc hok
    obtain ⟨n, rfl⟩ : ∃ n, remaining = n + 1 := ⟨remaining - 1, by omega⟩
    rw [Nat.add_zero] at hsucc ⊢
    simp [executeHttpGo, hsucc, hok]
  | succ k ih =>
    intro attempt remaining lastR r hk hfail hsucc hok
    obtain ⟨n, rfl⟩ : ∃ n, remaining = n + 1 := ⟨remaining - 1, by omega⟩
    have hn : n ≠ 0 := by omega
    have hshift : attempt + 1 + k = attempt + (k + 1) := by omega
    rcases hfail attempt le_rfl (by omega) with ⟨e, he, hre⟩ |
        ⟨q, hq, hqs, hqr⟩
    · have hstep := ih (attempt + 1) n lastR r (by omega)
        (fun i h1 h2 => hfail i (by omega) (by omega))
        (by rw [hshift]; exact hsucc) hok
      rw [show attempt + (k + 1) = attempt + 1 + k from by omega]
      simpa [executeHttpGo, he, hre, hn] using hstep
    · have hstep := ih (attempt + 1) n (some q) r (by omega)
        (fun i h1 h2 => hfail i (by omega) (by omega))
        (by rw [hshift]; exact hsucc) hok
      rw [show attempt + (k + 1) = attempt + 1 + k from by omega]
      simpa [executeHttpGo, hq, hqs, hqr] using hstep

lemma executeWithRetryGo_exhaust {T : Type} (op : Nat → Except JsError T)
    (M : Nat) (errs : Nat → JsError) :
    ∀ (remaining attempt : Nat) (le : Option JsError),
      1 ≤ remaining →
      (∀ i, attempt ≤ i → i < attempt + remaining →
        op i = .error (errs i) ∧ shouldRetry (errs i) = true) →
      executeWithRetryGo op M attempt remaining le =
        (.error (finalizeRetryError M (some (errs (attempt + remaining - 1)))),
          attempt + remaining - 1) := by
  intro remaining
  induction remaining with
  | zero => omega
  | succ n ih =>
    intro attempt le _ hfail
    obtain ⟨he, hre⟩ := hfail attempt le_rfl (by omega)
    by_cases hn : n = 0
    · subst hn
      simp [executeWithRetryGo, he, hre]
    · have hstep := ih (attempt + 1) (some (errs attempt)) (by omega)
        (fun i h1 h2 => hfail i (by omega) (by omega))
      rw [show attempt + (n + 1) - 1 = attempt + 1 + n - 1 from by omega]
      simpa [executeWithRetryGo, he, hre] using hstep

lemma executeHttpGo_exhaust_env (op : Nat → Except JsError HttpResponse)
    (M : Nat) (resp : Nat → HttpResponse) :
    ∀ (remaining attempt : Nat) (lastR : Option HttpResponse),
      1 ≤ remaining →
      (∀ i, attempt ≤ i → i < attempt + remaining →
        op i = .ok (resp i) ∧ (resp i).success = false ∧
          shouldRetryHttpResponse (resp i) = true) →
      executeHttpGo op M attempt remaining lastR =
        (.ok (resp (attempt + remaining - 1)), attempt + remaining - 1) := by
  intro remaining
  induction remaining with
  | zero => omega
  | succ n ih =>
    intro attempt lastR _ hfail
    obtain ⟨hq, hqs, hqr⟩ := hfail attempt le_rfl (by omega)
    by_cases hn : n = 0
    · subst hn
      simp [executeHttpGo, hq, hqs, hqr]
    · have hstep := ih (attempt + 1) (some (resp attempt)) (by omega)
        (fun i h1 h2 => hfail i (by omega) (by omega))
      rw [show attempt + (n + 1) - 1 = attempt + 1 + n - 1 from by omega]
      simpa [executeHttpGo, hq, hqs, hqr] using hstep

lemma executeHttpGo_exhaust_throw (op : Nat → Except JsError HttpResponse)
    (M : Nat) (errs : Nat → JsError) :
    ∀ (remaining attempt : Nat) (lastR : Option HttpResponse),
      1 ≤ remaining →
      (∀ i, attempt ≤ i → i < attempt + remaining →
        op i = .error (errs i) ∧ shouldRetry (errs i) = true) →
      executeHttpGo op M attempt remaining lastR =
        (.error (errs (attempt + remaining - 1)), attempt + remaining - 1) := by
  intro remaining
  induction remaining with
  | zero => omega
  | succ n ih =>
    intro attempt lastR _ hfail
    obtain ⟨he, hre⟩ := hfail attempt le_rfl (by omega)
    by_cases hn : n = 0
    · subst hn
      simp [executeHttpGo, he, hre]
    · have hstep := ih (attempt + 1) lastR (by omega)
        (fun i h1 h2 => hfail i (by omega) (by omega))
      rw [show attempt + (n + 1) - 1 = attempt + 1 + n - 1 from by omega]
      simpa [executeHttpGo, he, hre, hn] using hstep

/-- C1: an operation that fails retriably (a retriable throw, or a failed
retriable envelope) on its first `k` attempts with `k < maxAttempts` and
then succeeds makes `executeWithRetry` — and `executeHttpWithRetry` for
envelope-returning operations — return the successful result after exactly
`k + 1` invocations. -/
theorem retry_success_after_failures :
    (∀ {T : Type} (cfg : RetryConfig) (op : Nat → Except JsError T)
        (k : Nat) (v : T),
      k < cfg.maxAttempts →
      (∀ i, 1 ≤ i → i ≤ k → ∃ e, op i = .error e ∧ shouldRetry e = true) →
      op (k + 1) = .ok v →
      executeWithRetry cfg op = (.ok v, k + 1)) ∧
    (∀ (cfg : RetryConfig) (op : Nat → Except JsError HttpResponse)
        (k : Nat) (r : HttpResponse),
      k < cfg.maxAttempts →
      (∀ i, 1 ≤ i → i ≤ k →
        (∃ e, op i = .error e ∧ shouldRetry e = true) ∨
          (∃ q, op i = .ok q ∧ q.success = false ∧
            shouldRetryHttpResponse q = true)) →
      op (k + 1) = .ok r → r.success = true →
      executeHttpWithRetry cfg op = (.ok r, k + 1)) := by
  constructor
  · intro T cfg op k v hk hfail hsucc
    have h := executeWithRetryGo_success op cfg.maxAttempts k 1
      cfg.maxAttempts none v hk
      (fun i h1 h2 => hfail i h1 (by omega))
      (by rw [Nat.add_comm 1 k]; exact hsucc)
    rw [executeWithRetry, h, Nat.add_comm 1 k]
  · intro cfg op k r hk hfail hsucc hok
    have h := executeHttpGo_success op cfg.maxAttempts k 1
      cfg.maxAttempts none r hk
      (fun i h1 h2 => hfail i h1 (by omega))
      (by rw [Nat.add_comm 1 k]; exact hsucc) hok
    rw [executeHttpWithRetry, h, Nat.add_comm 1 k]

/-- Witness for C1: with the default configuration, an operation throwing a
retriable error once and then succeeding returns the success on the second
invocation, in both variants. -/
theorem retry_success_after_failures_witness :
    executeWithRetry {}
        (fun i => if i = 1
          then (.error (.augmeter .network "ECONNRESET") : Except JsError Nat)
          else .ok 42) =
      (.ok 42, 2) ∧
    executeHttpWithRetry {}
        (fun i => if i = 1
          then .ok { success := false, status := some 503 }
          else .ok { success := true, status := some 200 }) =
      (.ok { success := true, status := some 200 }, 2) := by
  constructor
  · refine retry_success_after_failures.1 {} _ 1 42 (by decide) ?_ rfl
    intro i h1 h2
    have hi : i = 1 := by omega
    subst hi
    exact ⟨.augmeter .network "ECONNRESET", rfl, rfl⟩
  · refine retry_success_after_failures.2 {} _ 1 _ (by decide) ?_ rfl rfl
    intro i h1 h2
    have hi : i = 1 := by omega
    subst hi
    exact Or.inr ⟨{ success := false, status := some 503 }, rfl, rfl, rfl⟩

/-- C8: a thrown error classified as validation or authentication is never
retried — the operation runs exactly once and the original error, message
included, is rethrown unchanged; and a failed envelope with HTTP status 401
is never retried — the envelope itself is returned after one attempt. -/
theorem nonretriable_single_attempt :
    (∀ {T : Type} (cfg : RetryConfig) (op : Nat → Except JsError T)
        (t : ErrorType) (m : String),
      1 ≤ cfg.maxAttempts →
      t = .validation ∨ t = .authentication →
      op 1 = .error (.augmeter t m) →
      executeWithRetry cfg op = (.error (.augmeter t m), 1)) ∧
    (∀ (cfg : RetryConfig) (op : Nat → Except JsError HttpResponse)
        (r : HttpResponse),
      1 ≤ cfg.maxAttempts →
      op 1 = .ok r → r.success = false → r.status = some 401 →
      executeHttpWithRetry cfg op = (.ok r, 1)) := by
  constructor
  · intro T cfg op t m hM ht hop
    obtain ⟨n, hn⟩ : ∃ n, cfg.maxAttempts = n + 1 :=
      ⟨cfg.maxAttempts - 1, by omega⟩
    have hsr : shouldRetry (.augmeter t m) = false := by
      rcases ht with rfl | rfl <;> rfl
    rw [executeWithRetry, hn]
    simp [executeWithRetryGo, hop, hsr]
  · intro cfg op r hM hop hs h401
    obtain ⟨n, hn⟩ : ∃ n, cfg.maxAttempts = n + 1 :=
      ⟨cfg.maxAttempts - 1, by omega⟩
    have hsr : shouldRetryHttpResponse r = false := by
      simp [shouldRetryHttpResponse, h401]
    rw [executeHttpWithRetry, hn]
    simp [executeHttpGo, hop, hs, hsr]

/-- Witness for C8: a validation error and a 401 envelope each end the
retry loop after a single invocation with the original failure surfaced. -/
theorem nonretriable_single_attempt_witness :
    executeWithRetry {}
        (fun _ => (.error (.augmeter .validation "Cookie validation failed")
          : Except JsError Nat)) =
      (.error (.augmeter .validation "Cookie validation failed"), 1) ∧
    executeHttpWithRetry {}
        (fun _ => .ok { success := false, status := some 401 }) =
      (.ok { success := false, status := some 401 }, 1) := by
  exact ⟨nonretriable_single_attempt.1 {} _ .validation
      "Cookie validation failed" (by decide) (Or.inl rfl) rfl,
    nonretriable_single_attempt.2 {} _ _ (by decide) rfl rfl rfl⟩

/-- C9 counterexample: for an operation whose failures are thrown
exceptions, `executeHttpWithRetry` does throw on exhaustion (the retriable
connection-refused error of the last attempt propagates instead of a failed
envelope being returned); and on exhaustion with an api-typed error,
`executeWithRetry` rethrows that error itself — the thrown error's type is
`api`, not the network wrapper the claim describes. -/
theorem retryExhaustion_counterexample :
    executeHttpWithRetry {}
        (fun _ => .error (.plain "Error" "connect ECONNREFUSED 127.0.0.1:443")) =
      (.error (.plain "Error" "connect ECONNREFUSED 127.0.0.1:443"), 3) ∧
    executeWithRetry {}
        (fun _ => (.error (.augmeter .api "HTTP 503") : Except JsError Nat)) =
      (.error (.augmeter .api "HTTP 503"), 3) ∧
    JsError.augmeter .api "HTTP 503" ≠
      .augmeter .network
        ("Operation failed after 3 attempts: " ++
          (JsError.augmeter .api "HTTP 503").display) := by
  exact ⟨rfl, rfl, by decide⟩

/-- C9 (amended): when every attempt returns a failed retriable envelope,
`executeHttpWithRetry` returns the last-seen failed envelope without
throwing, but when the failures are thrown (retriable) exceptions the last
exception propagates on exhaustion; and on exhaustion `executeWithRetry`
rethrows the last error itself when it is a typed `AugmeterError`, and
otherwise throws a typed network error wrapping the last cause. -/
theorem retryExhaustion_spec :
    (∀ (cfg : RetryConfig) (op : Nat → Except JsError HttpResponse)
        (resp : Nat → HttpResponse),
      1 ≤ cfg.maxAttempts →
      (∀ i, 1 ≤ i → i ≤ cfg.maxAttempts →
        op i = .ok (resp i) ∧ (resp i).success = false ∧
          shouldRetryHttpResponse (resp i) = true) →
      executeHttpWithRetry cfg op = (.ok (resp cfg.maxAttempts), cfg.maxAttempts)) ∧
    (∀ (cfg : RetryConfig) (op : Nat → Except JsError HttpResponse)
        (errs : Nat → JsError),
      1 ≤ cfg.maxAttempts →
      (∀ i, 1 ≤ i → i ≤ cfg.maxAttempts →
        op i = .error (errs i) ∧ shouldRetry (errs i) = true) →
      executeHttpWithRetry cfg op = (.error (errs cfg.maxAttempts), cfg.maxAttempts)) ∧
    (∀ {T : Type} (cfg : RetryConfig) (op : Nat → Except JsError T)
        (errs : Nat → JsError) (t : ErrorType) (m : String),
      1 ≤ cfg.maxAttempts →
      (∀ i, 1 ≤ i → i ≤ cfg.maxAttempts →
        op i = .error (errs i) ∧ shouldRetry (errs i) = true) →
      errs cfg.maxAttempts = .augmeter t m →
      executeWithRetry cfg op = (.error (.augmeter t m), cfg.maxAttempts)) ∧
    (∀ {T : Type} (cfg : RetryConfig) (op : Nat → Except JsError T)
        (errs : Nat → JsError) (name msg : String),
      1 ≤ cfg.maxAttempts →
      (∀ i, 1 ≤ i → i ≤ cfg.maxAttempts →
        op i = .error (errs i) ∧ shouldRetry (errs i) = true) →
      errs cfg.maxAttempts = .plain name msg →
      executeWithRetry cfg op =
        (.error (.augmeter .network
          ("Operation failed after " ++ toString cfg.maxAttempts ++
            " attempts: " ++ (name ++ ": " ++ msg))), cfg.maxAttempts)) := by
  refine ⟨?_, ?_, ?_, ?_⟩
  · intro cfg op resp hM hfail
    have h := executeHttpGo_exhaust_env op cfg.maxAttempts resp
      cfg.maxAttempts 1 none hM
      (fun i h1 h2 => hfail i h1 (by omega))
    rw [executeHttpWithRetry, h,
      show 1 + cfg.maxAttempts - 1 = cfg.maxAttempts from by omega]
  · intro cfg op errs hM hfail
    have h := executeHttpGo_exhaust_throw op cfg.maxAttempts errs
      cfg.maxAttempts 1 none hM
      (fun i h1 h2 => hfail i h1 (by omega))
    rw [executeHttpWithRetry, h,
      show 1 + cfg.maxAttempts - 1 = cfg.maxAttempts from by omega]
  · intro T cfg op errs t m hM hfail hlast
    have h := executeWithRetryGo_exhaust op cfg.maxAttempts errs
      cfg.maxAttempts 1 none hM
      (fun i h1 h2 => hfail i h1 (by omega))
    rw [executeWithRetry, h]
    rw [show 1 + cfg.maxAttempts - 1 = cfg.maxAttempts from by omega, hlast]
    rfl
  · intro T cfg op errs name msg hM hfail hlast
    have h := executeWithRetryGo_exhaust op cfg.maxAttempts errs
      cfg.maxAttempts 1 none hM
      (fun i h1 h2 => hfail i h1 (by omega))
    rw [executeWithRetry, h]
    rw [show 1 + cfg.maxAttempts - 1 = cfg.maxAttempts from by omega, hlast]
    rfl

/-- Witness for C9 at concrete operations: envelope exhaustion returns the
final failed envelope; thrown exhaustion rethrows the final error; and the
two `executeWithRetry` exhaustion shapes produce the rethrown typed error
and the network wrapper respectively. -/
theorem retryExhaustion_spec_witness :
    executeHttpWithRetry {}
        (fun i => .ok { success := false, status := some (500 + i) }) =
      (.ok { success := false, status := some 503 }, 3) ∧
    executeHttpWithRetry {}
        (fun i => .error (.other ("failure " ++ toString i))) =
      (.error (.other "failure 3"), 3) ∧
    executeWithRetry {}
        (fun _ => (.error (.augmeter .network "ETIMEDOUT") : Except JsError Nat)) =
      (.error (.augmeter .network "ETIMEDOUT"), 3) ∧
    executeWithRetry {}
        (fun _ => (.error (.plain "TypeError" "fetch failed") : Except JsError Nat)) =
      (.error (.augmeter .network
        "Operation failed after 3 attempts: TypeError: fetch failed"), 3) := by
  refine ⟨?_, ?_, ?_, ?_⟩
  · exact retryExhaustion_spec.1 {} _
      (fun i => { success := false, status := some (500 + i) }) (by decide)
      (fun i h1 h2 => ⟨rfl, rfl, by
        simp only [shouldRetryHttpResponse]
        rw [if_neg (by simp), if_pos (by omega)]⟩)
  · exact retryExhaustion_spec.2.1 {} _
      (fun i => .other ("failure " ++ toString i)) (by decide)
      (fun i h1 h2 => ⟨rfl, rfl⟩)
  · exact retryExhaustion_spec.2.2.1 {} _
      (fun _ => .augmeter .network "ETIMEDOUT") .network "ETIMEDOUT"
      (by decide) (fun i h1 h2 => ⟨rfl, rfl⟩) rfl
  · exact retryExhaustion_spec.2.2.2 {} _
      (fun _ => .plain "TypeError" "fetch failed") "TypeError" "fetch failed"
      (by decide) (fun i h1 h2 => ⟨rfl, rfl⟩) rfl

lemma makeRequestWithBase_log (st : ClientState)
    (net : RequestLogEntry → Except JsError HttpResponse)
    (baseUrl endpoint : String) :
    (makeRequestWithBase st net baseUrl endpoint).2.2 =
      [{ baseUrl := baseUrl, endpoint := endpoint,
         cookie := st.sessionCookie }] := by
  simp only [makeRequestWithBase]
  set entry : RequestLogEntry :=
    { baseUrl := baseUrl, endpoint := endpoint,
      cookie := st.sessionCookie } with hentry
  cases hn : net entry with
  | error e => rfl
  | ok response =>
    dsimp only
    split_ifs <;> rfl

/-- C3 counterexample: a tenant-base failure that is a thrown exception —
a transport error exhausting its retries is rethrown by the retry loop and
caught nowhere in `getUsageData` — propagates out with exactly one request
issued and no fallback to the shared default base, so the claim's "for any
tenant-base failure other than unauthenticated, exactly one fallback
request is made" is false at this input: the request log has length 1, not
2. -/
theorem getUsageData_counterexample :
    getUsageData
        { sessionCookie := some "_session=abcdef0123456789"
          persistedCookie := some "_session=abcdef0123456789" }
        "https://tenant.example/api"
        (fun _ => .error (.augmeter .network
          "Request timeout after 30000ms: https://tenant.example/api/credits")) =
      (.error (.augmeter .network
        "Request timeout after 30000ms: https://tenant.example/api/credits"),
       { sessionCookie := some "_session=abcdef0123456789"
         persistedCookie := some "_session=abcdef0123456789" },
       [{ baseUrl := "https://tenant.example/api", endpoint := "/credits",
          cookie := some "_session=abcdef0123456789" }]) ∧
    (getUsageData
        { sessionCookie := some "_session=abcdef0123456789"
          persistedCookie := some "_session=abcdef0123456789" }
        "https://tenant.example/api"
        (fun _ => .error (.augmeter .network
          "Request timeout after 30000ms: https://tenant.example/api/credits"))).2.2.length
      = 1 := by
  exact ⟨rfl, rfl⟩

/-- C3 (amended): without a held credential `getUsageData` returns the
distinguished `UNAUTHENTICATED` failure and issues no request; when the
tenant-base request comes back with HTTP 401 the in-memory and persisted
credentials are both cleared and the `UNAUTHENTICATED` failure is returned
with no fallback request; for a tenant-base failure that resolves to a
failed envelope other than a 401, exactly one fallback request is issued,
to the shared default base URL, carrying the same credential; and for a
tenant-base failure that is a thrown exception, the exception propagates
with exactly one request issued and no fallback. -/
theorem getUsageData_spec :
    (∀ (st : ClientState) (base : String)
        (net : RequestLogEntry → Except JsError HttpResponse),
      hasCookie st = false →
      getUsageData st base net =
        (.ok { success := false, error := some "Not authenticated",
               code := some "UNAUTHENTICATED" }, st, [])) ∧
    (∀ (st : ClientState) (base : String)
        (net : RequestLogEntry → Except JsError HttpResponse)
        (r : HttpResponse),
      hasCookie st = true →
      net { baseUrl := base, endpoint := "/credits",
            cookie := st.sessionCookie } = .ok r →
      r.status = some 401 →
      getUsageData st base net =
        (.ok { success := false,
               error := some "Authentication failed - cookie expired or invalid",
               code := some "UNAUTHENTICATED", status := some 401 },
         { sessionCookie := none, persistedCookie := none },
         [{ baseUrl := base, endpoint := "/credits",
            cookie := st.sessionCookie }])) ∧
    (∀ (st : ClientState) (base : String)
        (net : RequestLogEntry → Except JsError HttpResponse)
        (r : HttpResponse),
      hasCookie st = true →
      net { baseUrl := base, endpoint := "/credits",
            cookie := st.sessionCookie } = .ok r →
      r.success = false → r.status ≠ some 401 →
      (getUsageData st base net).2.2 =
        [{ baseUrl := base, endpoint := "/credits",
           cookie := st.sessionCookie },
         { baseUrl := DEFAULT_API_BASE_URL, endpoint := "/credits",
           cookie := st.sessionCookie }]) ∧
    (∀ (st : ClientState) (base : String)
        (net : RequestLogEntry → Except JsError HttpResponse) (e : JsError),
      hasCookie st = true →
      net { baseUrl := base, endpoint := "/credits",
            cookie := st.sessionCookie } = .error e →
      getUsageData st base net =
        (.error e, st,
         [{ baseUrl := base, endpoint := "/credits",
            cookie := st.sessionCookie }])) := by
  refine ⟨?_, ?_, ?_, ?_⟩
  · intro st base net h
    simp [getUsageData, h]
  · intro st base net r hc hnet h401
    have hbeq : (r.status == some 401) = true := by simp [h401]
    simp [getUsageData, hc, makeRequestWithBase, hnet, hbeq,
      clearSessionCookie]
  · intro st base net r hc hnet hfail h401
    have hbeq : (r.status == some 401) = false := by
      simpa using h401
    have htenant : makeRequestWithBase st net base "/credits" =
        (.ok { success := false
               error := some (errorStringOr r.error
                 ("API request failed: " ++ statusDisplay r.status))
               status := r.status
               code := if (r.status == some 429 ||
                   (match r.status with
                    | some s => decide (500 ≤ s ∧ s ≤ 599)
                    | none => false)) then some "RETRIABLE" else none },
         st,
         [{ baseUrl := base, endpoint := "/credits",
            cookie := st.sessionCookie }]) := by
      simp [makeRequestWithBase, hnet, hbeq, hfail]
    have hcode : ((if (r.status == some 429 ||
        (match r.status with
         | some s => decide (500 ≤ s ∧ s ≤ 599)
         | none => false)) then some "RETRIABLE" else (none : Option String)) ==
          some "UNAUTHENTICATED") = false := by
      split <;> decide
    have hlog2 :=
      makeRequestWithBase_log st net DEFAULT_API_BASE_URL "/credits"
    rcases hfb : makeRequestWithBase st net DEFAULT_API_BASE_URL "/credits"
      with ⟨r2, st2, log2⟩
    rw [hfb] at hlog2
    simp only [getUsageData, hc, Bool.not_true, Bool.false_eq_true,
      if_false, htenant, hcode, hfb]
    simpa using hlog2
  · intro st base net e hc hnet
    simp [getUsageData, hc, makeRequestWithBase, hnet]

/-- Witness for C3 at concrete states: no request without a credential; a
401 tenant response clears both credential copies with no fallback; a 503
tenant response triggers exactly one fallback to the default base with the
same cookie; and a thrown tenant failure propagates with one request and
no fallback. -/
theorem getUsageData_spec_witness :
    getUsageData { sessionCookie := none, persistedCookie := none }
        "https://tenant.example/api" (fun _ => .ok { success := true }) =
      (.ok { success := false, error := some "Not authenticated",
             code := some "UNAUTHENTICATED" },
       { sessionCookie := none, persistedCookie := none }, []) ∧
    getUsageData
        { sessionCookie := some "_session=abcdef0123456789"
          persistedCookie := some "_session=abcdef0123456789" }
        "https://tenant.example/api"
        (fun _ => .ok { success := false, status := some 401 }) =
      (.ok { success := false,
             error := some "Authentication failed - cookie expired or invalid",
             code := some "UNAUTHENTICATED", status := some 401 },
       { sessionCookie := none, persistedCookie := none },
       [{ baseUrl := "https://tenant.example/api", endpoint := "/credits",
          cookie := some "_session=abcdef0123456789" }]) ∧
    (getUsageData
        { sessionCookie := some "_session=abcdef0123456789"
          persistedCookie := some "_session=abcdef0123456789" }
        "https://tenant.example/api"
        (fun _ => .ok { success := false, status := some 503 })).2.2 =
      [{ baseUrl := "https://tenant.example/api", endpoint := "/credits",
         cookie := some "_session=abcdef0123456789" },
       { baseUrl := DEFAULT_API_BASE_URL, endpoint := "/credits",
         cookie := some "_session=abcdef0123456789" }] ∧
    getUsageData
        { sessionCookie := some "_session=abcdef0123456789"
          persistedCookie := some "_session=abcdef0123456789" }
        "https://tenant.example/api"
        (fun _ => .error (.augmeter .network "ECONNRESET")) =
      (.error (.augmeter .network "ECONNRESET"),
       { sessionCookie := some "_session=abcdef0123456789"
         persistedCookie := some "_session=abcdef0123456789" },
       [{ baseUrl := "https://tenant.example/api", endpoint := "/credits",
          cookie := some "_session=abcdef0123456789" }]) := by
  exact ⟨getUsageData_spec.1 _ _ _ rfl,
    getUsageData_spec.2.1 _ _ _ _ rfl rfl rfl,
    getUsageData_spec.2.2.1 _ _ _ { success := false, status := some 503 }
      rfl rfl rfl (by decide),
    getUsageData_spec.2.2.2 _ _ _ (.augmeter .network "ECONNRESET")
      rfl rfl⟩

/-- C4: the six shape rules are evaluated in the fixed precedence order —
the parser's value is the result of the earliest rule whose guard holds,
and every earlier guard fails; an unsuccessful or data-less envelope yields
`null`; and the three concrete scenarios of the spec hold: the units shape
gives consumed 5 / limit 100, the nested credits shape gives consumed 30 /
limit 100, and `{success: false}` gives `null`. -/
theorem parseUsage_spec :
    (∀ (now : String) (resp : AugmentApiResponse),
      resp.success = false ∨ resp.data.truthy = false →
      parseUsageResponsePure now resp = none) ∧
    (∀ (now : String) (data : JsVal), data.truthy = true →
      parseUsageResponsePure now { success := true, data := data } =
          ruleResult (firstMatchingRule data) now data ∧
        ruleGuard data (firstMatchingRule data) = true ∧
        ∀ j, 1 ≤ j → j < firstMatchingRule data → ruleGuard data j = false) ∧
    (∀ now : String,
      (parseUsageResponsePure now
          { success := true,
            data := .obj [("usageUnitsUsedThisBillingCycle", .num 5),
              ("usageUnitsAvailable", .num 95)] }).map
          (fun r => (r.totalUsage, r.usageLimit)) =
        some (.num 5, .num 100)) ∧
    (∀ now : String,
      (parseUsageResponsePure now
          { success := true,
            data := .obj [("credits",
              .obj [("used", .num 30), ("available", .num 70)])] }).map
          (fun r => (r.totalUsage, r.usageLimit)) =
        some (.num 30, .num 100)) ∧
    (∀ now : String,
      parseUsageResponsePure now { success := false } = none) := by
  refine ⟨?_, ?_, fun now => rfl, fun now => rfl, fun now => rfl⟩
  · intro now resp h
    rcases h with h | h <;> simp [parseUsageResponsePure, h]
  · intro now data hd
    rcases Bool.eq_false_or_eq_true (rule1Guard data) with h1 | h1
    · refine ⟨?_, ?_, ?_⟩
      · simp [parseUsageResponsePure, hd, h1, firstMatchingRule, ruleResult]
      · simp [firstMatchingRule, h1, ruleGuard]
      · intro j hj1 hj2
        simp [firstMatchingRule, h1] at hj2
        omega
    rcases Bool.eq_false_or_eq_true (rule2Guard data) with h2 | h2
    · refine ⟨?_, ?_, ?_⟩
      · simp [parseUsageResponsePure, hd, h1, h2, firstMatchingRule,
          ruleResult]
      · simp [firstMatchingRule, h1, h2, ruleGuard]
      · intro j hj1 hj2
        simp [firstMatchingRule, h1, h2] at hj2
        interval_cases j
        simp [ruleGuard, h1]
    rcases Bool.eq_false_or_eq_true (rule3Guard data) with h3 | h3
    · refine ⟨?_, ?_, ?_⟩
      · simp [parseUsageResponsePure, hd, h1, h2, h3, firstMatchingRule,
          ruleResult]
      · simp [firstMatchingRule, h1, h2, h3, ruleGuard]
      · intro j hj1 hj2
        simp [firstMatchingRule, h1, h2, h3] at hj2
        interval_cases j <;> simp [ruleGuard, h1, h2]
    rcases Bool.eq_false_or_eq_true (rule4Guard data) with h4 | h4
    · refine ⟨?_, ?_, ?_⟩
      · simp [parseUsageResponsePure, hd, h1, h2, h3, h4,
          firstMatchingRule, ruleResult]
      · simp [firstMatchingRule, h1, h2, h3, h4, ruleGuard]
      · intro j hj1 hj2
        simp [firstMatchingRule, h1, h2, h3, h4] at hj2
        interval_cases j <;> simp [ruleGuard, h1, h2, h3]
    rcases Bool.eq_false_or_eq_true (rule5Guard data) with h5 | h5
    · refine ⟨?_, ?_, ?_⟩
      · simp [parseUsageResponsePure, hd, h1, h2, h3, h4, h5,
          firstMatchingRule, ruleResult]
      · simp [firstMatchingRule, h1, h2, h3, h4, h5, ruleGuard]
      · intro j hj1 hj2
        simp [firstMatchingRule, h1, h2, h3, h4, h5] at hj2
        interval_cases j <;> simp [ruleGuard, h1, h2, h3, h4]
    refine ⟨?_, ?_, ?_⟩
    · simp [parseUsageResponsePure, hd, h1, h2, h3, h4, h5,
        firstMatchingRule, ruleResult]
    · simp [firstMatchingRule, h1, h2, h3, h4, h5, ruleGuard]
    · intro j hj1 hj2
      simp [firstMatchingRule, h1, h2, h3, h4, h5] at hj2
      interval_cases j <;> simp [ruleGuard, h1, h2, h3, h4, h5]

/-- Witness for C4 at a payload matching both rule 1 and rule 4: the parser
resolves it through rule 1, the earliest matching rule. -/
theorem parseUsage_spec_witness :
    parseUsageResponsePure "2024-01-01T00:00:00.000Z"
        { success := true,
          data := .obj [("usageUnitsUsedThisBillingCycle", .num 5),
            ("credits", .obj [("used", .num 30), ("available", .num 70)])] } =
      ruleResult
        (firstMatchingRule
          (.obj [("usageUnitsUsedThisBillingCycle", .num 5),
            ("credits", .obj [("used", .num 30), ("available", .num 70)])]))
        "2024-01-01T00:00:00.000Z"
        (.obj [("usageUnitsUsedThisBillingCycle", .num 5),
          ("credits", .obj [("used", .num 30), ("available", .num 70)])]) ∧
    firstMatchingRule
        (.obj [("usageUnitsUsedThisBillingCycle", .num 5),
          ("credits", .obj [("used", .num 30), ("available", .num 70)])]) = 1 := by
  exact ⟨(parseUsage_spec.2.1 "2024-01-01T00:00:00.000Z"
    (.obj [("usageUnitsUsedThisBillingCycle", .num 5),
      ("credits", .obj [("used", .num 30), ("available", .num 70)])])
    rfl).1, rfl⟩

/-- C10: the fallback rule makes normalization of a successful envelope
total — whenever the success flag is set and the data field is truthy, the
parser returns a record; `null` is returned exactly when success is false
or the data is falsy; and on a payload matching no earlier rule the
fallback derives consumed from the root aliases (default 0) and the limit
from its aliases (default 1000). -/
theorem parseUsage_total_spec :
    (∀ (now : String) (resp : AugmentApiResponse),
      resp.success = true → resp.data.truthy = true →
      (parseUsageResponsePure now resp).isSome = true) ∧
    (∀ (now : String) (resp : AugmentApiResponse),
      parseUsageResponsePure now resp = none ↔
        resp.success = false ∨ resp.data.truthy = false) ∧
    (∀ now : String,
      parseUsageResponsePure now
          { success := true, data := .obj [("note", .str "x")] } =
        some { totalUsage := .num 0, usageLimit := .num 1000,
               dailyUsage := .undefval, monthlyUsage := .undefval,
               lastUpdate := .str now, subscriptionType := .undefval,
               renewalDate := .undefval }) ∧
    (∀ now : String,
      (parseUsageResponsePure now
          { success := true,
            data := .obj [("count", .num 7), ("quota", .num 50)] }).map
          (fun r => (r.totalUsage, r.usageLimit)) =
        some (.num 7, .num 50)) := by
  have hsome : ∀ (now : String) (resp : AugmentApiResponse),
      resp.success = true → resp.data.truthy = true →
      (parseUsageResponsePure now resp).isSome = true := by
    intro now resp hs hd
    simp only [parseUsageResponsePure, hs, hd, Bool.not_true,
      Bool.or_self, Bool.false_eq_true, if_false]
    split_ifs <;> rfl
  refine ⟨hsome, ?_, fun now => rfl, fun now => rfl⟩
  intro now resp
  constructor
  · intro h
    by_contra hcon
    simp only [not_or, Bool.not_eq_false] at hcon
    have := hsome now resp hcon.1 hcon.2
    rw [h] at this
    exact absurd this (by simp)
  · intro h
    rcases h with h | h <;> simp [parseUsageResponsePure, h]

/-- Witness for C10: a successful truthy-data envelope parses to a record
(`isSome`), and the iff direction gives `null` for a falsy payload. -/
theorem parseUsage_total_spec_witness :
    (parseUsageResponsePure "T"
        { success := true, data := .obj [] }).isSome = true ∧
    parseUsageResponsePure "T" { success := true, data := .num 0 } = none := by
  exact ⟨parseUsage_total_spec.1 "T" { success := true, data := .obj [] }
      rfl rfl,
    (parseUsage_total_spec.2.1 "T"
      { success := true, data := .num 0 }).mpr (Or.inr rfl)⟩

lemma length_insertByTime (s : UsageSnapshot) (xs : List UsageSnapshot) :
    (insertByTime s xs).length = xs.length + 1 := by
  induction xs with
  | nil => rfl
  | cons t ts ih =>
    simp only [insertByTime]
    split_ifs <;> simp [ih]

lemma length_sortByTime (xs : List UsageSnapshot) :
    (sortByTime xs).length = xs.length := by
  induction xs with
  | nil => rfl
  | cons s ss ih => simp [sortByTime, length_insertByTime, ih]

lemma inWindowSorted_length_le (now w : Int) (snaps : List UsageSnapshot) :
    (inWindowSorted now w snaps).length ≤ snaps.length := by
  unfold inWindowSorted
  rw [length_sortByTime]
  exact List.length_filter_le _ _

lemma head_eq_getLast_of_length_le_one {α : Type} (L : List α)
    (h : L.length ≤ 1) : L.head? = L.getLast? := by
  match L with
  | [] => rfl
  | [x] => rfl
  | x :: y :: r => simp at h

lemma computeUsageRate_nonneg (now w : Int) (snaps : List UsageSnapshot)
    (q : ℚ) (h : computeUsageRate now snaps w = some q) : 0 ≤ q := by
  unfold computeUsageRate at h
  split at h
  · exact absurd h (by simp)
  · simp only [] at h
    split at h
    · exact absurd h (by simp)
    · split at h
      · split at h
        · exact absurd h (by simp)
        · split at h
          · exact absurd h (by simp)
          · rename_i earliest latest hdm hdc
            obtain rfl : _ = q := Option.some_inj.mp h
            apply div_nonneg
            · exact_mod_cast by omega
            · apply div_nonneg
              · exact_mod_cast by omega
              · norm_num
      · exact absurd h (by simp)

/-- C5: `computeUsageRate` yields `none` when fewer than two snapshots fall
inside the trailing window, when the earliest-to-latest span of the
in-window series is under 60 seconds, or when the consumed delta is
negative; otherwise it yields the consumed delta divided by the span in
hours, which is never negative; and the four concrete scenarios of the
spec hold (rate 50, reset, single point, 30-second resolution floor). -/
theorem computeUsageRate_spec :
    (∀ (now w : Int) (snaps : List UsageSnapshot),
      (inWindowSorted now w snaps).length < 2 →
      computeUsageRate now snaps w = none) ∧
    (∀ (now w : Int) (snaps : List UsageSnapshot) (e l : UsageSnapshot),
      (inWindowSorted now w snaps).head? = some e →
      (inWindowSorted now w snaps).getLast? = some l →
      l.timestamp - e.timestamp < 60000 →
      computeUsageRate now snaps w = none) ∧
    (∀ (now w : Int) (snaps : List UsageSnapshot) (e l : UsageSnapshot),
      (inWindowSorted now w snaps).head? = some e →
      (inWindowSorted now w snaps).getLast? = some l →
      l.consumed - e.consumed < 0 →
      computeUsageRate now snaps w = none) ∧
    (∀ (now w : Int) (snaps : List UsageSnapshot) (e l : UsageSnapshot),
      (inWindowSorted now w snaps).head? = some e →
      (inWindowSorted now w snaps).getLast? = some l →
      60000 ≤ l.timestamp - e.timestamp →
      0 ≤ l.consumed - e.consumed →
      computeUsageRate now snaps w =
        some ((l.consumed - e.consumed : ℚ) /
          ((l.timestamp - e.timestamp : ℚ) / 3600000))) ∧
    (∀ (now w : Int) (snaps : List UsageSnapshot) (q : ℚ),
      computeUsageRate now snaps w = some q → 0 ≤ q) ∧
    computeUsageRate 0 [⟨-7200000, 100⟩, ⟨0, 200⟩] 24 = some 50 ∧
    computeUsageRate 0 [⟨-7200000, 500⟩, ⟨0, 50⟩] 24 = none ∧
    computeUsageRate 0 [⟨0, 100⟩] 24 = none ∧
    computeUsageRate 30000 [⟨0, 10⟩, ⟨30000, 20⟩] 24 = none := by
  have hnone : ∀ (now w : Int) (snaps : List UsageSnapshot)
      (e l : UsageSnapshot),
      (inWindowSorted now w snaps).head? = some e →
      (inWindowSorted now w snaps).getLast? = some l →
      (l.timestamp - e.timestamp < 60000 ∨ l.consumed - e.consumed < 0) →
      computeUsageRate now snaps w = none := by
    intro now w snaps e l he hl hcond
    unfold computeUsageRate
    by_cases h1 : snaps.length < 2
    · simp [h1]
    by_cases h2 : (inWindowSorted now w snaps).length < 2
    · simp [h1, h2]
    rcases hcond with hc | hc
    · simp [h1, h2, he, hl, hc]
    · by_cases hdm : l.timestamp - e.timestamp < 60000
      · simp [h1, h2, he, hl, hdm]
      · simp [h1, h2, he, hl, hdm, hc]
  refine ⟨?_, ?_, ?_, ?_, computeUsageRate_nonneg, ?_, ?_, ?_, ?_⟩
  · intro now w snaps h2
    unfold computeUsageRate
    by_cases h1 : snaps.length < 2
    · simp [h1]
    · simp [h1, h2]
  · intro now w snaps e l he hl hc
    exact hnone now w snaps e l he hl (Or.inl hc)
  · intro now w snaps e l he hl hc
    exact hnone now w snaps e l he hl (Or.inr hc)
  · intro now w snaps e l he hl hdt hdc
    have hL2 : 2 ≤ (inWindowSorted now w snaps).length := by
      by_contra hlt
      push_neg at hlt
      have heq := head_eq_getLast_of_length_le_one _ (by omega : (inWindowSorted now w snaps).length ≤ 1)
      rw [he, hl] at heq
      obtain rfl : e = l := Option.some_inj.mp heq
      omega
    have hS2 : ¬snaps.length < 2 := by
      have := inWindowSorted_length_le now w snaps
      omega
    unfold computeUsageRate
    simp [hS2, show ¬(inWindowSorted now w snaps).length < 2 from by omega,
      he, hl, not_lt.mpr hdt, not_lt.mpr hdc]
  · norm_num [computeUsageRate, inWindowSorted, sortByTime, insertByTime]
  · norm_num [computeUsageRate, inWindowSorted, sortByTime, insertByTime]
  · norm_num [computeUsageRate]
  · norm_num [computeUsageRate, inWindowSorted, sortByTime, insertByTime]

/-- Witness for C5 at concrete snapshot series, covering the too-few, too
short, reset, and positive-rate clauses with their hypotheses discharged at
concrete inputs. -/
theorem computeUsageRate_spec_witness :
    computeUsageRate 5 [⟨0, 1⟩] 24 = none ∧
    computeUsageRate 30000 [⟨0, 10⟩, ⟨30000, 20⟩] 24 = none ∧
    computeUsageRate 0 [⟨-7200000, 500⟩, ⟨0, 50⟩] 24 = none ∧
    computeUsageRate 0 [⟨-7200000, 100⟩, ⟨0, 200⟩] 24 =
      some ((((⟨0, 200⟩ : UsageSnapshot).consumed -
          (⟨-7200000, 100⟩ : UsageSnapshot).consumed : ℚ)) /
        ((((⟨0, 200⟩ : UsageSnapshot).timestamp -
          (⟨-7200000, 100⟩ : UsageSnapshot).timestamp : ℚ)) / 3600000)) := by
  exact ⟨computeUsageRate_spec.1 5 24 [⟨0, 1⟩] (by decide),
    computeUsageRate_spec.2.1 30000 24 [⟨0, 10⟩, ⟨30000, 20⟩]
      ⟨0, 10⟩ ⟨30000, 20⟩ rfl rfl (by decide),
    computeUsageRate_spec.2.2.1 0 24 [⟨-7200000, 500⟩, ⟨0, 50⟩]
      ⟨-7200000, 500⟩ ⟨0, 50⟩ rfl rfl (by decide),
    computeUsageRate_spec.2.2.2.1 0 24 [⟨-7200000, 100⟩, ⟨0, 200⟩]
      ⟨-7200000, 100⟩ ⟨0, 200⟩ rfl rfl (by decide) (by decide)⟩

end Augmeter
